import Mathlib

/-!
Shallow embedding of the `@charcoal-ui/styled` theme builder
(`src/packages/styled/src/index.ts` and
`src/packages/styled/src/builders/borderRadius.ts`): the internal
descriptor protocol, the context fold, the implicit transition
descriptor (`commonSpec`), blank/singleton normalization and the
two-pass resolution pipeline of `createTheme`.

Modules of the repository that the `src/` snapshot does not include
(`builders/internal.ts`, `builders/colors.ts`, `util.ts`,
`@charcoal-ui/utils`) are modelled from the specification; each such
definition carries a doc comment starting with `Modelled from the spec:`.
-/

namespace Charcoal

/-- CSS values: strings (`"8px"`, transition lists) or nested fragment
objects (e.g. under an `&:hover` selector key), as in the
`CSSObject` type of styled-components used by the source. -/
inductive CSSValue where
  | str (s : String)
  | nested (o : List (String × CSSValue))
deriving Repr

/-- A CSS fragment: a flat ordered mapping from property names (or
nested selector keys) to values, mirroring a JS object literal. -/
def CSSObject := List (String × CSSValue)

/-- The shared `Context` of `builders/internal.ts`.
Modelled from the spec: the context is a mapping from the coordination
keys currently in use — the three transition flags read by `commonSpec`
(`src/packages/styled/src/index.ts` lines 99-103) — to boolean values;
an `Option` field models presence of the key in the JS object, so that
the shallow-merge spread `{...acc, ...v}` can distinguish an absent key
from a key set to `false`. -/
structure Context where
  colorTransition : Option Bool
  backgroundColorTransition : Option Bool
  boxShadowTransition : Option Bool
deriving Repr, DecidableEq

/-- The empty JS object `{}` used as the initial accumulator of the
context fold in `createTheme`. -/
def Context.empty : Context :=
  { colorTransition := none
    backgroundColorTransition := none
    boxShadowTransition := none }

/-- JS shallow object spread `{...acc, ...v}` on `Context`
(`src/packages/styled/src/index.ts` line 167): a key present in `v`
overwrites the one in `acc`. -/
def Context.merge (acc v : Context) : Context :=
  { colorTransition :=
      match v.colorTransition with
      | some b => some b
      | none => acc.colorTransition
    backgroundColorTransition :=
      match v.backgroundColorTransition with
      | some b => some b
      | none => acc.backgroundColorTransition
    boxShadowTransition :=
      match v.boxShadowTransition with
      | some b => some b
      | none => acc.boxShadowTransition }

/-- The internal descriptor of `builders/internal.ts`.
Modelled from the spec: a descriptor carries a context contribution
(empty by default) and a pure render function from the resolved context
to a CSS fragment; `__DO_NOT_USE_GET_INTERNAL__` exposes exactly these
two fields to the resolver. -/
structure Internal where
  context : Context
  operation : Context → CSSObject

/-- Modelled from the spec: the one-argument `internal(operation)`
constructor of `builders/internal.ts` used by `commonSpec`; the context
contribution defaults to the empty mapping when the creator supplies
none. -/
def internal (operation : Context → CSSObject) : Internal :=
  { context := Context.empty, operation := operation }

/-- Modelled from the spec: `createInternal({ toCSS })` of
`builders/internal.ts` as used by `createBorderRadiusCss`; the produced
descriptor has an empty context contribution and renders `toCSS`
regardless of the context. -/
def createInternal (toCSS : CSSObject) : Internal :=
  { context := Context.empty, operation := fun _ => toCSS }

/-- Modelled from the spec: `px` of `@charcoal-ui/utils` — the single
shared unit-formatting rule converting a numeric token to a
pixel-suffixed CSS string. -/
def px (value : Int) : String :=
  toString value ++ "px"

/-- The theme object, restricted to the token categories the claims
exercise: `borderRadius` numeric tokens and `color` tokens. Total
functions model the statically-typed records whose keys are guaranteed
present by the type system. -/
structure Theme where
  borderRadius : String → Int
  color : String → String

/-- `createBorderRadiusCss` of `src/packages/styled/src/builders/borderRadius.ts`:
looks the numeric token up in the theme and renders
`{ borderRadius: px(theme.borderRadius[size]) }`. -/
def createBorderRadiusCss (theme : Theme) (size : String) : Internal :=
  createInternal [("borderRadius", CSSValue.str (px (theme.borderRadius size)))]

/-- The property list built inside `commonSpec`
(`src/packages/styled/src/index.ts` lines 104-110):
`[colorTransition ? 'color' : null, backgroundColorTransition ?
'background-color' : null, boxShadowTransition ? 'box-shadow' :
null].filter(isPresent)`, with each flag destructured with default
`false`. -/
def commonSpecProps (ctx : Context) : List String :=
  ([ if ctx.colorTransition.getD false then some "color" else none,
     if ctx.backgroundColorTransition.getD false then some "background-color" else none,
     if ctx.boxShadowTransition.getD false then some "box-shadow" else none
   ]).filterMap id

/-- The local `transition` helper of `commonSpec`
(`src/packages/styled/src/index.ts` lines 95-97): a single `transition`
property whose value joins `duration + " " + property` over the list
with `", "`. The duration string `dur(TRANSITION_DURATION)` lives in
the missing `builders/internal` and `@charcoal-ui/utils` modules; the
spec fixes no value for it, so it is a parameter `d` of the
development. -/
def transition (d : String) (property : List String) : CSSObject :=
  [("transition", CSSValue.str (String.intercalate ", " (property.map (fun v => d ++ " " ++ v))))]

/-- `commonSpec` of `src/packages/styled/src/index.ts` lines 93-112:
the implicit transition descriptor. It ignores the theme and renders
the transition fragment for the properties whose flags are set in the
resolved context. -/
def commonSpec (d : String) (_theme : Theme) : Internal :=
  internal (fun ctx => transition d (commonSpecProps ctx))

/-- A value the user callback may put in its result: one of the three
blank values `null`, `undefined`, `false`, or an internal descriptor
(the `Blank | Internal` union of `src/packages/styled/src/index.ts`
line 114 and 145). -/
inductive SpecValue where
  | jsNull
  | jsUndefined
  | jsFalse
  | desc (d : Internal)

/-- `nonBlank` of `src/packages/styled/src/index.ts` lines 116-117:
`isPresent(value) && value !== false`, so exactly the descriptors are
kept. -/
def nonBlank : SpecValue → Bool
  | SpecValue.desc _ => true
  | _ => false

/-- What the user callback returns: a bare value or an array of values
(the `Blank | Internal | (Blank | Internal)[]` return type at
`src/packages/styled/src/index.ts` line 145). -/
inductive SpecResult where
  | single (v : SpecValue)
  | array (vs : List SpecValue)

/-- `Array.isArray(raw) ? raw : [raw]`
(`src/packages/styled/src/index.ts` lines 158-160). -/
def SpecResult.toList : SpecResult → List SpecValue
  | SpecResult.single v => [v]
  | SpecResult.array vs => vs

/-- Extraction of the descriptor from a non-blank value; composed with
`List.filterMap` this is exactly `.filter(nonBlank)` on the
`Blank | Internal` union. -/
def extractDesc : SpecValue → Option Internal
  | SpecValue.desc d => some d
  | _ => none

/-- The normalization step of `createTheme`
(`src/packages/styled/src/index.ts` lines 157-162):
`[...(Array.isArray(raw) ? raw : [raw]), commonSpec(theme)].filter(nonBlank)`. -/
def normalize (raw : SpecResult) (common : Internal) : List Internal :=
  (raw.toList ++ [SpecValue.desc common]).filterMap extractDesc

/-- Pass 1 of `createTheme` (`src/packages/styled/src/index.ts` lines
166-169): `specDescriptor.reduce((acc, v) => ({...acc,
...__DO_NOT_USE_GET_INTERNAL__(v).context}), {})`. -/
def resolveContext (ds : List Internal) : Context :=
  ds.foldl (fun acc v => Context.merge acc v.context) Context.empty

/-- The modified value produced by a color accessor, exposing the
unmodified fragment and the `hover` derivation.
Modelled from the spec: the `colors` builder is not under `src/`; per
the spec a Modified Value is usable directly as the plain fragment and
each named modifier wraps the fragment under the corresponding CSS
state selector. -/
structure ModifiedColor where
  base : Internal
  hover : Internal

/-- The builder object `o` handed to the user callback, restricted to
the accessors the claims exercise. -/
structure Builder where
  borderRadius : String → Internal
  bg : String → ModifiedColor

/-- `builder` of `src/packages/styled/src/index.ts` lines 43-91,
restricted to the accessors the claims exercise. The `borderRadius`
accessor is wired from `createBorderRadiusCss` exactly as at lines
59-66. The `bg` accessor is modelled from the spec: the `colors`
builder is not under `src/`; per the spec the hover modifier nests the
background-color fragment under the `&:hover` selector and contributes
`{backgroundColorTransition: true}` to the context, so that the
eventual transition rule can include `background-color`. -/
def builder (theme : Theme) : Builder :=
  { borderRadius := fun radius => createBorderRadiusCss theme radius
    bg := fun key =>
      { base :=
          createInternal [("background-color", CSSValue.str (theme.color key))]
        hover :=
          { context :=
              { colorTransition := none
                backgroundColorTransition := some true
                boxShadowTransition := none }
            operation := fun _ =>
              [("&:hover",
                CSSValue.nested
                  [("background-color", CSSValue.str (theme.color key))])] } } }

/-- The body of the render-prop function for a present theme
(`src/packages/styled/src/index.ts` lines 155-174): build `o`, run the
user callback, normalize, fold the context (pass 1), then map every
descriptor through its render function at the final context (pass 2). -/
def resolve (d : String) (spec : Builder → SpecResult) (theme : Theme) :
    List CSSObject :=
  let specDescriptor := normalize (spec (builder theme)) (commonSpec d theme)
  let context := resolveContext specDescriptor
  specDescriptor.map (fun v => v.operation context)

/-- The single error kind: `noThemeProvider` of `util.ts`, raised when
the theme is absent. -/
inductive ThemeError where
  | missingThemeProvider
deriving Repr, DecidableEq

/-- The render-prop function returned by `createTheme(...)(spec)`
(`src/packages/styled/src/index.ts` lines 141-175): `Option` models
the `theme: T | undefined` prop, and the `Except` result models the
`throw noThemeProvider` at line 150 against a normal return. -/
def themeRenderProp (d : String) (spec : Builder → SpecResult)
    (theme : Option Theme) : Except ThemeError (List CSSObject) :=
  match theme with
  | none => Except.error ThemeError.missingThemeProvider
  | some t => Except.ok (resolve d spec t)

/-- A sample theme used to instantiate universally quantified theorems
at a concrete input: every border radius token is `8`, every color
token is `#fff`. -/
def sampleTheme : Theme :=
  { borderRadius := fun _ => 8, color := fun _ => "#fff" }

/-- A sample descriptor contributing `{colorTransition: true}` and
rendering nothing. -/
def contribColorTrue : Internal :=
  { context :=
      { colorTransition := some true
        backgroundColorTransition := none
        boxShadowTransition := none }
    operation := fun _ => [] }

/-- A sample descriptor contributing `{colorTransition: false}` and
rendering nothing. -/
def contribColorFalse : Internal :=
  { context :=
      { colorTransition := some false
        backgroundColorTransition := none
        boxShadowTransition := none }
    operation := fun _ => [] }

theorem normalize_eq_append (raw : SpecResult) (c : Internal) :
    normalize raw c = raw.toList.filterMap extractDesc ++ [c] := by
  unfold normalize
  rw [List.filterMap_append]
  rfl

theorem resolveContext_append_singleton (l : List Internal) (v : Internal) :
    resolveContext (l ++ [v]) = Context.merge (resolveContext l) v.context := by
  unfold resolveContext
  rw [List.foldl_append]
  rfl

theorem mem_commonSpecProps (ctx : Context) (p : String) :
    p ∈ commonSpecProps ctx ↔
      (p = "color" ∧ ctx.colorTransition.getD false = true) ∨
      (p = "background-color" ∧ ctx.backgroundColorTransition.getD false = true) ∨
      (p = "box-shadow" ∧ ctx.boxShadowTransition.getD false = true) := by
  cases h1 : ctx.colorTransition.getD false <;>
    cases h2 : ctx.backgroundColorTransition.getD false <;>
      cases h3 : ctx.boxShadowTransition.getD false <;>
        simp [commonSpecProps, h1, h2, h3]

theorem resolve_getLast (d : String) (spec : Builder → SpecResult) (t : Theme) :
    (resolve d spec t).getLast? =
      some (transition d (commonSpecProps
        (resolveContext (normalize (spec (builder t)) (commonSpec d t))))) := by
  unfold resolve
  rw [normalize_eq_append, List.map_append]
  rw [List.getLast?_append]
  simp [commonSpec, internal, normalize_eq_append]

/-- C1: the shared context is built by a left-to-right shallow-merge
fold of the descriptors' contributions in which a later descriptor's
value for a key overwrites an earlier one; in particular, given two
descriptors contributing `{colorTransition: true}` then
`{colorTransition: false}` in list order, the implicit transition
descriptor's rendered fragment does not include `color` in its
transition list. -/
theorem c1_context_fold_last_write_wins (d : String) (t : Theme)
    (l : List Internal) (v c1 c2 : Internal)
    (h1 : c1.context.colorTransition = some true)
    (h2 : c2.context.colorTransition = some false) :
    resolveContext (l ++ [v]) = Context.merge (resolveContext l) v.context ∧
    ∃ props,
      (resolve d
          (fun _ => SpecResult.array [SpecValue.desc c1, SpecValue.desc c2])
          t).getLast?
        = some (transition d props) ∧ "color" ∉ props := by
  refine ⟨resolveContext_append_singleton l v, ?_⟩
  refine ⟨commonSpecProps (resolveContext (normalize
    (SpecResult.array [SpecValue.desc c1, SpecValue.desc c2])
    (commonSpec d t))), resolve_getLast d _ t, ?_⟩
  intro hmem
  rw [mem_commonSpecProps] at hmem
  have hctx : (resolveContext (normalize
      (SpecResult.array [SpecValue.desc c1, SpecValue.desc c2])
      (commonSpec d t))).colorTransition = some false := by
    simp [normalize, SpecResult.toList, extractDesc, List.filterMap,
      resolveContext, Context.merge, commonSpec, internal, Context.empty,
      h1, h2]
  rcases hmem with ⟨hp, hflag⟩ | ⟨hp, _⟩ | ⟨hp, _⟩
  · rw [hctx] at hflag
    simp at hflag
  · simp at hp
  · simp at hp

/-- C1 witness: the theorem instantiated at the sample theme, the empty
descriptor list, and the two sample contributions. -/
theorem c1_witness :
    resolveContext ([] ++ [contribColorTrue])
      = Context.merge (resolveContext []) contribColorTrue.context ∧
    ∃ props,
      (resolve "0.2s"
          (fun _ => SpecResult.array
            [SpecValue.desc contribColorTrue, SpecValue.desc contribColorFalse])
          sampleTheme).getLast?
        = some (transition "0.2s" props) ∧ "color" ∉ props :=
  c1_context_fold_last_write_wins "0.2s" sampleTheme [] contribColorTrue
    contribColorTrue contribColorFalse rfl rfl

/-- C2: exactly one implicit transition descriptor is appended as the
final element of the normalized sequence; its rendered fragment is a
single `transition` property (the `transition` helper produces exactly
one property) whose list contains exactly those of `color`,
`background-color`, `box-shadow` whose boolean flag is true in the
final context, each flag defaulting to `false` when absent. -/
theorem c2_implicit_descriptor_appended_last (d : String) (t : Theme)
    (raw : SpecResult) (ctx : Context) :
    normalize raw (commonSpec d t)
      = raw.toList.filterMap extractDesc ++ [commonSpec d t] ∧
    (commonSpec d t).operation ctx = transition d (commonSpecProps ctx) ∧
    ∀ p : String, p ∈ commonSpecProps ctx ↔
      (p = "color" ∧ ctx.colorTransition.getD false = true) ∨
      (p = "background-color" ∧ ctx.backgroundColorTransition.getD false = true) ∨
      (p = "box-shadow" ∧ ctx.boxShadowTransition.getD false = true) :=
  ⟨normalize_eq_append raw _, rfl, fun p => mem_commonSpecProps ctx p⟩

/-- C3: for a spec returning only `[o.bg.surface3.hover]`, the implicit
transition descriptor's rendered fragment has a `transition` property
whose list includes `background-color`: the context contribution of a
user-level descriptor is observed by the system-injected descriptor. -/
theorem c3_cross_declaration_coupling (d : String) (t : Theme) :
    ∃ props,
      (resolve d
          (fun o => SpecResult.array [SpecValue.desc (o.bg "surface3").hover])
          t).getLast?
        = some (transition d props) ∧ "background-color" ∈ props := by
  refine ⟨["background-color"], ?_, by simp⟩
  rw [resolve_getLast]
  rfl

/-- C4: for a spec returning a list of blanks and descriptors, the
result is exactly the non-blank descriptors' fragments in their
relative order followed by the implicit transition fragment; in
particular `[null, a, false, b, undefined]` yields the fragments of
`a`, `b`, then the implicit transition descriptor. -/
theorem c4_blank_filtering (d : String) (t : Theme) (vs : List SpecValue)
    (a b : Internal) :
    resolve d (fun _ => SpecResult.array vs) t
      = (vs.filterMap extractDesc ++ [commonSpec d t]).map
          (fun v => v.operation
            (resolveContext (vs.filterMap extractDesc ++ [commonSpec d t]))) ∧
    resolve d
        (fun _ => SpecResult.array
          [SpecValue.jsNull, SpecValue.desc a, SpecValue.jsFalse,
           SpecValue.desc b, SpecValue.jsUndefined]) t
      = [a.operation (resolveContext [a, b, commonSpec d t]),
         b.operation (resolveContext [a, b, commonSpec d t]),
         transition d (commonSpecProps (resolveContext [a, b, commonSpec d t]))] := by
  constructor
  · simp only [resolve, normalize_eq_append]
    rfl
  · rfl

/-- C5: the returned fragment list is the normalized descriptor
sequence mapped in order through the render functions at the final
context: lengths agree and the i-th output fragment is the i-th
normalized descriptor's render. -/
theorem c5_ordered_render (d : String) (spec : Builder → SpecResult)
    (t : Theme) (i : Nat) :
    (resolve d spec t).length
      = (normalize (spec (builder t)) (commonSpec d t)).length ∧
    (resolve d spec t)[i]? =
      ((normalize (spec (builder t)) (commonSpec d t))[i]?).map
        (fun v => v.operation
          (resolveContext (normalize (spec (builder t)) (commonSpec d t)))) := by
  constructor
  · simp [resolve]
  · simp [resolve]

/-- C6: invoking the render-prop function with an absent theme raises
`MissingThemeProvider` for every spec (so before any descriptor is
built or rendered) and returns no fragment; with a present theme it
always returns a fragment list and never this error. -/
theorem c6_missing_theme (d : String) (spec specB : Builder → SpecResult)
    (t : Theme) :
    themeRenderProp d spec none
      = Except.error ThemeError.missingThemeProvider ∧
    ∃ frags, themeRenderProp d specB (some t) = Except.ok frags :=
  ⟨rfl, ⟨resolve d specB t, rfl⟩⟩

/-- C7: a spec returning a bare single descriptor produces the same
final fragment array as a spec returning that descriptor wrapped in a
one-element array. -/
theorem c7_singleton_normalization (d : String) (t : Theme) (v : Internal) :
    themeRenderProp d (fun _ => SpecResult.single (SpecValue.desc v)) (some t)
      = themeRenderProp d (fun _ => SpecResult.array [SpecValue.desc v]) (some t) :=
  rfl

/-- C8: for a fixed theme and fixed spec, two invocations of the
render-prop function yield identical output; the embedding is a pure
function of `(duration, spec, theme)` because the source reads no
mutable state, randomness, or time in `createTheme`. -/
theorem c8_determinism (d : String) (spec : Builder → SpecResult)
    (theme : Option Theme) (r1 r2 : Except ThemeError (List CSSObject))
    (h1 : r1 = themeRenderProp d spec theme)
    (h2 : r2 = themeRenderProp d spec theme) :
    r1 = r2 :=
  h1.trans h2.symm

/-- C8 witness: two concrete invocations at the sample theme agree. -/
theorem c8_witness :
    themeRenderProp "0.2s" (fun _ => SpecResult.array []) (some sampleTheme)
      = themeRenderProp "0.2s" (fun _ => SpecResult.array []) (some sampleTheme) :=
  c8_determinism "0.2s" (fun _ => SpecResult.array []) (some sampleTheme)
    _ _ rfl rfl

/-- C9: in every theme with `borderRadius.x = 8`, the accessor
`o.borderRadius('x')` renders `{ borderRadius: "8px" }` (the numeric
token is pixel-suffixed exactly once), both as a standalone descriptor
render and through the full pipeline. -/
theorem c9_border_radius_px (d : String) (t : Theme) (ctx : Context)
    (h : t.borderRadius "x" = 8) :
    ((builder t).borderRadius "x").operation ctx
      = [("borderRadius", CSSValue.str "8px")] ∧
    resolve d (fun o => SpecResult.single (SpecValue.desc (o.borderRadius "x"))) t
      = [[("borderRadius", CSSValue.str "8px")], transition d []] := by
  constructor
  · have e : ((builder t).borderRadius "x").operation ctx
        = [("borderRadius", CSSValue.str (px (t.borderRadius "x")))] := rfl
    rw [e, h]
    rfl
  · have e : resolve d
        (fun o => SpecResult.single (SpecValue.desc (o.borderRadius "x"))) t
        = [[("borderRadius", CSSValue.str (px (t.borderRadius "x")))],
           transition d (commonSpecProps Context.empty)] := rfl
    rw [e, h]
    rfl

/-- C9 witness: the theorem instantiated at the sample theme, where
every border radius token is `8`. -/
theorem c9_witness :
    ((builder sampleTheme).borderRadius "x").operation Context.empty
      = [("borderRadius", CSSValue.str "8px")] ∧
    resolve "0.2s"
        (fun o => SpecResult.single (SpecValue.desc (o.borderRadius "x")))
        sampleTheme
      = [[("borderRadius", CSSValue.str "8px")], transition "0.2s" []] :=
  c9_border_radius_px "0.2s" sampleTheme Context.empty rfl

/-- C10: when the spec returns only blank values (or a single blank),
the result is still a one-element list whose sole fragment is the
implicit transition descriptor's render over the empty context, namely
`{ transition: "" }` — never an empty array. -/
theorem c10_all_blank_spec (d : String) (t : Theme) (vs : List SpecValue)
    (h : ∀ v ∈ vs, nonBlank v = false) :
    resolve d (fun _ => SpecResult.array vs) t
      = [[("transition", CSSValue.str "")]] ∧
    ∀ bv : SpecValue, nonBlank bv = false →
      resolve d (fun _ => SpecResult.single bv) t
        = [[("transition", CSSValue.str "")]] := by
  constructor
  · have hnil : vs.filterMap extractDesc = [] := by
      rw [List.filterMap_eq_nil_iff]
      intro v hv
      have hb := h v hv
      cases v <;> simp_all [nonBlank, extractDesc]
    have e : normalize (SpecResult.array vs) (commonSpec d t)
        = [commonSpec d t] := by
      rw [normalize_eq_append]
      simp [SpecResult.toList, hnil]
    simp only [resolve, e]
    rfl
  · intro bv hbv
    have hb : extractDesc bv = none := by
      cases bv <;> simp_all [nonBlank, extractDesc]
    have hone : List.filterMap extractDesc [bv] = [] := by
      rw [List.filterMap_eq_nil_iff]
      intro a ha
      rw [List.mem_singleton] at ha
      rw [ha, hb]
    have e : normalize (SpecResult.single bv) (commonSpec d t)
        = [commonSpec d t] := by
      simp only [normalize, SpecResult.toList]
      rw [List.filterMap_append, hone]
      rfl
    simp only [resolve, e]
    rfl

/-- C10 witness: the theorem at the sample theme with the blank list
`[null, false, undefined]`. -/
theorem c10_witness :
    resolve "0.2s"
        (fun _ => SpecResult.array
          [SpecValue.jsNull, SpecValue.jsFalse, SpecValue.jsUndefined])
        sampleTheme
      = [[("transition", CSSValue.str "")]] ∧
    ∀ bv : SpecValue, nonBlank bv = false →
      resolve "0.2s" (fun _ => SpecResult.single bv) sampleTheme
        = [[("transition", CSSValue.str "")]] :=
  c10_all_blank_spec "0.2s" sampleTheme
    [SpecValue.jsNull, SpecValue.jsFalse, SpecValue.jsUndefined]
    (by
      intro v hv
      simp only [List.mem_cons, List.not_mem_nil, or_false] at hv
      rcases hv with rfl | rfl | rfl <;> rfl)

end Charcoal
